import Mathlib

/-!
Verification of the `jill/filters.py` module: a shallow embedding of its
data model and operations in Lean 4, followed by theorems settling the
specification claims.

Modelling conventions:
* Python strings are Lean `String`; character-level operations are defined
  on `List Char` with the Python semantics spelled out (ASCII reading of
  the character classes, which covers every vocabulary this module uses).
* A Python `dict` is modelled as an association list `List (key × value)`
  with first-match lookup `dget`, matching `dict.get(k, default)`.
* A Python call that may raise (the `assert self.validate(*args)` inside
  `NameFilter.__call__`) is modelled in `Option`: `none` is the raised
  error, `some x` is a normal return of `x`.  A filter whose shape
  function `f` itself calls another filter propagates that inner failure,
  so `NameFilter.f` has type `α → Option β`.
* The returned mapping of `generate_info` mixes strings and the integer
  `bit` field, so values are the sum type `Val`.
-/

/-- Values stored in the output mapping: Python strings or ints. -/
inductive Val : Type where
  | str : String → Val
  | int : Nat → Val
deriving DecidableEq, Repr

/-- First-match association-list lookup, Python `dict.get(k)` with `none`
as the missing-key result. -/
def dget {α β : Type} [DecidableEq α] (rules : List (α × β)) (k : α) : Option β :=
  match rules with
  | [] => none
  | (a, b) :: rest => if a = k then some b else dget rest k

/-- Python `str.capitalize()`: first character upper-cased, all remaining
characters lower-cased. -/
def pyCapitalize (s : String) : String :=
  match s.toList with
  | [] => ""
  | c :: rest => String.mk (c.toUpper :: rest.map Char.toLower)

/-- Python `str.upper()`: every character upper-cased. -/
def pyUpper (s : String) : String :=
  String.mk (s.toList.map Char.toUpper)

/-- Python `str.lstrip('v')`: drop every leading 'v' character. -/
def pyLstripV (s : String) : String :=
  String.mk (s.toList.dropWhile (· = 'v'))

/-- Python `str.split(sep)` for a single-character separator, on the
character list: always returns at least one (possibly empty) piece. -/
def pySplitChars (sep : Char) : List Char → List (List Char)
  | [] => [[]]
  | c :: rest =>
    let r := pySplitChars sep rest
    if c = sep then [] :: r
    else
      match r with
      | [] => [[c]]
      | g :: gs => (c :: g) :: gs

/-- Python `str.split(sep)` for a single-character separator. -/
def pySplit (s : String) (sep : Char) : List String :=
  (pySplitChars sep s.toList).map String.mk

/-- Python `sep.join(pieces)`. -/
def pyJoin (sep : String) : List String → String
  | [] => ""
  | [x] => x
  | x :: xs => x ++ sep ++ pyJoin sep xs

/-! ## The static rule tables (module-level constants of filters.py) -/

def SPECIAL_VERSION_NAMES : List String := ["latest", "nightly", "stable"]

def rule_sys : List (String × String) := [("windows", "winnt")]

def rules_os : List (String × String) := [("windows", "win")]

def rules_arch : List (String × String) :=
  [("i686", "x86"), ("x86_64", "x64"), ("ARMv8", "aarch64"), ("ARMv7", "armv7l")]

def rules_osarch : List (String × String) :=
  [("win-i686", "win32"), ("win-x86_64", "win64"), ("macos-x86_64", "mac64"),
   ("linux-ARMv7", "linux-armv7l"), ("linux-ARMv8", "linux-aarch64")]

def rules_extension : List (String × String) :=
  [("windows", "exe"), ("linux", "tar.gz"), ("macos", "dmg"), ("freebsd", "tar.gz")]

def rules_bit : List (String × Nat) :=
  [("i686", 32), ("x86_64", 64), ("ARMv8", 64), ("ARMv7", 32)]

/-- `rules_bit` lifted to the heterogeneous value type: the Python dict maps
string keys to int values inside the same untyped filter mechanism. -/
def rules_bit_val : List (Val × Val) :=
  rules_bit.map (fun p => (Val.str p.1, Val.int p.2))

def VALID_SYSTEM : List String := ["windows", "linux", "freebsd", "macos"]

def VALID_OS : List String := ["win", "linux", "freebsd", "macos"]

def VALID_ARCHITECTURE : List String := rules_arch.map Prod.fst

def VALID_ARCH : List String := rules_arch.map Prod.snd

/-! ## Validators -/

/-- Python `identity(*args)` at arity one: the lone argument unchanged. -/
def identity1 {α : Type} (x : α) : α := x

/-- Python `identity(*args)` at arity two: the arguments as a tuple. -/
def identity2 {α β : Type} (x : α) (y : β) : α × β := (x, y)

/-- Python `no_validate(*args)`: always true. -/
def no_validate {α : Type} (_ : α) : Bool := true

def is_system (system : String) : Bool := system ∈ VALID_SYSTEM

def is_os (os : String) : Bool := os ∈ VALID_OS

def is_architecture (arch : String) : Bool := arch ∈ VALID_ARCHITECTURE

def is_arch (arch : String) : Bool := arch ∈ VALID_ARCH

/-- A maximal run of decimal digits, with the rest of the input; fails when
the input does not start with a digit.  This is the matcher for one `\d+`
atom of VERSION_REGEX: `\d+` is greedy and every continuation of the
pattern after a `\d+` atom starts with a non-digit character, so the
deterministic maximal munch is equivalent to the backtracking regex. -/
def munchDigits (l : List Char) : Option (List Char) :=
  if (l.takeWhile Char.isDigit).isEmpty then none
  else some (l.dropWhile Char.isDigit)

/-- Python `bool(VERSION_REGEX.match(s))` for
VERSION_REGEX = `v(?P<major>\d+)\.(?P<minor>\d+)\.(?P<patch>\d+)(-(?P<status>\w+))?`.
`re.match` anchors at position 0 and accepts any prefix match; the trailing
optional group `(-\w+)?` can always match the empty string, so a match
exists exactly when `v\d+\.\d+\.\d+` matches a prefix of `s`. -/
def versionRegexMatch (s : String) : Bool :=
  match s.toList with
  | 'v' :: r0 =>
    match munchDigits r0 with
    | some ('.' :: r1) =>
      match munchDigits r1 with
      | some ('.' :: r2) => (munchDigits r2).isSome
      | _ => false
    | _ => false
  | _ => false

def is_version (version : String) : Bool :=
  if version ∈ SPECIAL_VERSION_NAMES then true
  else versionRegexMatch version

def is_valid_release (version system architecture : String) : Bool :=
  if system = "windows" ∧ architecture ∉ (["i686", "x86_64"] : List String) then
    false
  else if system = "macos" ∧ architecture ∉ (["x86_64"] : List String) then
    false
  else if system = "freebsd" ∧ architecture ∉ (["x86_64"] : List String) then
    false
  else if version = "latest" ∧
      (architecture ∉ (["i686", "x86_64"] : List String)
        ∨ system ∉ (["windows", "macos", "linux"] : List String)) then
    false
  else
    true

/-! ## NameFilter -/

/-- The NameFilter class: a shape function `f`, a rewrite table `rules`
(Python default: the empty dict) and a precondition `validate` (Python
default: `no_validate`).  `f` returns an `Option` because the shape
functions of the derived filters call other filters, whose own `validate`
assertion may fire inside the computation of `f`. -/
structure NameFilter (α β : Type) where
  f : α → Option β
  rules : List (β × β)
  validate : α → Bool

/-- `NameFilter.__call__`: assert `validate`, then rewrite `f args`
through `rules`, returning the key unchanged when it has no entry. -/
def NameFilter.call {α β : Type} [DecidableEq β]
    (nf : NameFilter α β) (a : α) : Option β :=
  if nf.validate a then (nf.f a).map (fun k => (dget nf.rules k).getD k)
  else none

/-! ## The filter instances -/

def f_major_version : NameFilter String String :=
  ⟨fun x => some ((pySplit (pyLstripV x) '.').headD ""), [], is_version⟩

def f_vmajor_version : NameFilter String String :=
  ⟨fun x => some ((pySplit x '.').headD ""), [], no_validate⟩

def f_Vmajor_version : NameFilter String String :=
  ⟨fun x => (f_vmajor_version.call x).map pyCapitalize, [], no_validate⟩

def f_minor_version : NameFilter String String :=
  ⟨fun x => some (pyJoin "." ((pySplit (pyLstripV x) '.').take 2)), [], is_version⟩

def f_vminor_version : NameFilter String String :=
  ⟨fun x => some (pyJoin "." ((pySplit x '.').take 2)), [], no_validate⟩

def f_Vminor_version : NameFilter String String :=
  ⟨fun x => (f_vminor_version.call x).map pyCapitalize, [], no_validate⟩

def f_patch_version : NameFilter String String :=
  ⟨fun x => some ((pySplit (pyLstripV x) '-').headD ""), [], is_version⟩

def f_vpatch_version : NameFilter String String :=
  ⟨fun x => some ((pySplit x '-').headD ""), [], no_validate⟩

def f_Vpatch_version : NameFilter String String :=
  ⟨fun x => (f_vpatch_version.call x).map pyCapitalize, [], no_validate⟩

def f_version : NameFilter String String :=
  ⟨fun x => some (identity1 x), [], is_version⟩

def f_system : NameFilter String String :=
  ⟨fun x => some (identity1 x), [], is_system⟩

def f_System : NameFilter String String :=
  ⟨fun x => (f_system.call x).map pyCapitalize, [], no_validate⟩

def f_SYSTEM : NameFilter String String :=
  ⟨fun x => (f_system.call x).map pyUpper, [], no_validate⟩

def f_sys : NameFilter String String :=
  ⟨fun x => some (identity1 x), rule_sys, is_system⟩

def f_Sys : NameFilter String String :=
  ⟨fun x => (f_sys.call x).map pyCapitalize, [], no_validate⟩

def f_SYS : NameFilter String String :=
  ⟨fun x => (f_sys.call x).map pyUpper, [], no_validate⟩

def f_os : NameFilter String String :=
  ⟨fun x => some (identity1 x), rules_os, is_system⟩

def f_Os : NameFilter String String :=
  ⟨fun x => (f_os.call x).map pyCapitalize, [], no_validate⟩

def f_OS : NameFilter String String :=
  ⟨fun x => (f_os.call x).map pyUpper, [], no_validate⟩

def f_arch : NameFilter String String :=
  ⟨fun x => some (identity1 x), rules_arch, is_architecture⟩

def f_Arch : NameFilter String String :=
  ⟨fun x => (f_arch.call x).map pyCapitalize, [], no_validate⟩

def f_ARCH : NameFilter String String :=
  ⟨fun x => (f_arch.call x).map pyUpper, [], no_validate⟩

def f_osarch : NameFilter (String × String) String :=
  ⟨fun p => some (p.1 ++ "-" ++ p.2), rules_osarch,
   fun p => is_os p.1 && is_architecture p.2⟩

def f_Osarch : NameFilter (String × String) String :=
  ⟨fun p => (f_osarch.call p).map pyCapitalize, [], no_validate⟩

def f_OSarch : NameFilter (String × String) String :=
  ⟨fun p => (f_osarch.call p).map pyUpper, [], no_validate⟩

def f_bit : NameFilter String Val :=
  ⟨fun x => some (Val.str (identity1 x)), rules_bit_val, is_architecture⟩

def f_extension : NameFilter String String :=
  ⟨fun x => some (identity1 x), rules_extension, is_system⟩

/-! ## generate_info -/

/-- The entries of the `configs` dict that are derived from `system` alone
(given the already computed `os`), in the order of the Python dict literal. -/
def configs_system (system os : String) : Option (List (String × Val)) :=
  (f_System.call system).bind fun sv =>
  (f_SYSTEM.call system).bind fun sv2 =>
  (f_sys.call system).bind fun sy =>
  (f_Sys.call system).bind fun sy2 =>
  (f_SYS.call system).bind fun sy3 =>
  (f_Os.call system).bind fun ov =>
  (f_OS.call system).bind fun ov2 =>
  some [("system", Val.str system), ("System", Val.str sv), ("SYSTEM", Val.str sv2),
        ("sys", Val.str sy), ("Sys", Val.str sy2), ("SYS", Val.str sy3),
        ("os", Val.str os), ("Os", Val.str ov), ("OS", Val.str ov2)]

/-- The entries of the `configs` dict derived from `architecture` alone
(given the already computed `arch`), in the order of the Python dict literal. -/
def configs_architecture (architecture arch : String) : Option (List (String × Val)) :=
  (f_Arch.call architecture).bind fun av =>
  (f_ARCH.call architecture).bind fun av2 =>
  some [("architecture", Val.str architecture),
        ("Arch", Val.str av), ("arch", Val.str arch), ("ARCH", Val.str av2)]

/-- The `osarch`, `Osarch`, `OSarch` entries of the `configs` dict. -/
def configs_osarch (os architecture : String) : Option (List (String × Val)) :=
  (f_osarch.call (os, architecture)).bind fun oa =>
  (f_Osarch.call (os, architecture)).bind fun oa2 =>
  (f_OSarch.call (os, architecture)).bind fun oa3 =>
  some [("osarch", Val.str oa), ("Osarch", Val.str oa2), ("OSarch", Val.str oa3)]

/-- The `bit` and `extension` entries of the `configs` dict. -/
def configs_bitext (system architecture : String) : Option (List (String × Val)) :=
  (f_bit.call architecture).bind fun bit =>
  (f_extension.call system).bind fun ext =>
  some [("bit", bit), ("extension", Val.str ext)]

/-- The version entries of the `configs` dict, in the order of the Python
dict literal. -/
def configs_version (plain_version : String) : Option (List (String × Val)) :=
  (f_version.call plain_version).bind fun ver =>
  (f_major_version.call plain_version).bind fun majv =>
  (f_vmajor_version.call plain_version).bind fun vmajv =>
  (f_minor_version.call plain_version).bind fun minv =>
  (f_vminor_version.call plain_version).bind fun vminv =>
  (f_patch_version.call plain_version).bind fun patv =>
  (f_vpatch_version.call plain_version).bind fun vpatv =>
  some [("version", Val.str ver),
        ("major_version", Val.str majv), ("vmajor_version", Val.str vmajv),
        ("minor_version", Val.str minv), ("vminor_version", Val.str vminv),
        ("patch_version", Val.str patv), ("vpatch_version", Val.str vpatv)]

/-- The `configs` dict built inside `generate_info`: first the two helper
calls `os = f_os(system)` and `arch = f_arch(architecture)`, then the dict
literal, whose filter calls are modelled in source order by the helper
chains above; any assertion failure in any filter call aborts the whole
construction (the dict literal is split into consecutive slices purely to
keep the embedded term small, the entries and their order are those of the
source). -/
def generate_configs (plain_version system architecture : String) :
    Option (List (String × Val)) :=
  (f_os.call system).bind fun os =>
  (f_arch.call architecture).bind fun arch =>
  (configs_system system os).bind fun l1 =>
  (configs_architecture architecture arch).bind fun l2 =>
  (configs_osarch os architecture).bind fun l3 =>
  (configs_bitext system architecture).bind fun l4 =>
  (configs_version plain_version).bind fun l5 =>
  some (l1 ++ l2 ++ l3 ++ l4 ++ l5)

/-- `generate_info`: build `configs`, then `kwargs.update(configs)` and
return `kwargs`.  Under first-match `dget` lookup, the updated dict has
the same key-value mapping as `configs ++ kwargs`: on a shared key the
`update` gives the `configs` entry precedence. -/
def generate_info (plain_version system architecture : String)
    (kwargs : List (String × Val)) : Option (List (String × Val)) :=
  (generate_configs plain_version system architecture).map
    (fun configs => configs ++ kwargs)

/-- The 25 keys of the `configs` dict, in source order. -/
def derivedFieldNames : List String :=
  ["system", "System", "SYSTEM", "sys", "Sys", "SYS", "os", "Os", "OS",
   "architecture", "Arch", "arch", "ARCH", "osarch", "Osarch", "OSarch",
   "bit", "extension", "version", "major_version", "vmajor_version",
   "minor_version", "vminor_version", "patch_version", "vpatch_version"]

/-! ## Closed-form values of the filters on validated inputs

These spell out what each filter call returns once its `validate`
precondition holds; the evaluation theorem `generate_configs_eval` below
proves that `generate_configs` produces exactly these values. -/

def sysOf (system : String) : String := (dget rule_sys system).getD system

def osOf (system : String) : String := (dget rules_os system).getD system

def archOf (architecture : String) : String :=
  (dget rules_arch architecture).getD architecture

def osarchOf (os architecture : String) : String :=
  (dget rules_osarch (os ++ "-" ++ architecture)).getD (os ++ "-" ++ architecture)

def bitOf (architecture : String) : Val :=
  (dget rules_bit_val (Val.str architecture)).getD (Val.str architecture)

def extensionOf (system : String) : String :=
  (dget rules_extension system).getD system

def majorOf (v : String) : String := (pySplit (pyLstripV v) '.').headD ""

def vmajorOf (v : String) : String := (pySplit v '.').headD ""

def minorOf (v : String) : String := pyJoin "." ((pySplit (pyLstripV v) '.').take 2)

def vminorOf (v : String) : String := pyJoin "." ((pySplit v '.').take 2)

def patchOf (v : String) : String := (pySplit (pyLstripV v) '-').headD ""

def vpatchOf (v : String) : String := (pySplit v '-').headD ""

/-- The full `configs` dict in closed form, for validated inputs. -/
def mkConfigs (version system architecture : String) : List (String × Val) :=
  [("system", Val.str system),
   ("System", Val.str (pyCapitalize system)),
   ("SYSTEM", Val.str (pyUpper system)),
   ("sys", Val.str (sysOf system)),
   ("Sys", Val.str (pyCapitalize (sysOf system))),
   ("SYS", Val.str (pyUpper (sysOf system))),
   ("os", Val.str (osOf system)),
   ("Os", Val.str (pyCapitalize (osOf system))),
   ("OS", Val.str (pyUpper (osOf system))),
   ("architecture", Val.str architecture),
   ("Arch", Val.str (pyCapitalize (archOf architecture))),
   ("arch", Val.str (archOf architecture)),
   ("ARCH", Val.str (pyUpper (archOf architecture))),
   ("osarch", Val.str (osarchOf (osOf system) architecture)),
   ("Osarch", Val.str (pyCapitalize (osarchOf (osOf system) architecture))),
   ("OSarch", Val.str (pyUpper (osarchOf (osOf system) architecture))),
   ("bit", bitOf architecture),
   ("extension", Val.str (extensionOf system)),
   ("version", Val.str version),
   ("major_version", Val.str (majorOf version)),
   ("vmajor_version", Val.str (vmajorOf version)),
   ("minor_version", Val.str (minorOf version)),
   ("vminor_version", Val.str (vminorOf version)),
   ("patch_version", Val.str (patchOf version)),
   ("vpatch_version", Val.str (vpatchOf version))]

/-! ## Helper lemmas -/

theorem is_system_of_mem {system : String} (h : system ∈ VALID_SYSTEM) :
    is_system system = true := by
  simp [is_system, h]

theorem is_architecture_of_mem {architecture : String}
    (h : architecture ∈ VALID_ARCHITECTURE) :
    is_architecture architecture = true := by
  simp [is_architecture, h]

theorem dget_append_of_mem_keys {β : Type} (k : String)
    (l t : List (String × β)) (h : k ∈ l.map Prod.fst) :
    dget (l ++ t) k = dget l k := by
  induction l with
  | nil => simp at h
  | cons p l ih =>
    by_cases hp : p.1 = k
    · simp [dget, hp]
    · have h' : k ∈ l.map Prod.fst := by
        rcases List.mem_map.mp h with ⟨q, hq, hqk⟩
        rcases List.mem_cons.mp hq with rfl | hql
        · exact absurd hqk hp
        · exact List.mem_map.mpr ⟨q, hql, hqk⟩
      simpa [dget, hp] using ih h'

theorem dget_isSome_of_mem_keys {β : Type} (k : String)
    (l : List (String × β)) (h : k ∈ l.map Prod.fst) :
    (dget l k).isSome = true := by
  induction l with
  | nil => simp at h
  | cons p l ih =>
    by_cases hp : p.1 = k
    · simp [dget, hp]
    · have h' : k ∈ l.map Prod.fst := by
        rcases List.mem_map.mp h with ⟨q, hq, hqk⟩
        rcases List.mem_cons.mp hq with rfl | hql
        · exact absurd hqk hp
        · exact List.mem_map.mpr ⟨q, hql, hqk⟩
      simpa [dget, hp] using ih h'

theorem mkConfigs_keys (version system architecture : String) :
    (mkConfigs version system architecture).map Prod.fst = derivedFieldNames := by
  simp [mkConfigs, derivedFieldNames]

/-- Evaluation of `generate_configs` on validated inputs: every filter
assertion holds and the dict is the closed form `mkConfigs`. -/
theorem generate_configs_eval (version system architecture : String)
    (hs : is_system system = true) (ha : is_architecture architecture = true)
    (hv : is_version version = true) :
    generate_configs version system architecture =
      some (mkConfigs version system architecture) := by
  have hs' : system ∈ VALID_SYSTEM := by simpa [is_system] using hs
  simp only [VALID_SYSTEM, List.mem_cons, List.not_mem_nil, or_false] at hs'
  rcases hs' with rfl | rfl | rfl | rfl <;>
    simp [generate_configs, configs_system, configs_architecture, configs_osarch,
      configs_bitext, configs_version, NameFilter.call, f_os, f_arch, f_System,
      f_SYSTEM, f_system, f_sys, f_Sys, f_SYS, f_Os, f_OS, f_Arch, f_ARCH,
      f_osarch, f_Osarch, f_OSarch, f_bit, f_extension, f_version,
      f_major_version, f_vmajor_version, f_minor_version, f_vminor_version,
      f_patch_version, f_vpatch_version, identity1, no_validate,
      is_system, is_os, VALID_SYSTEM, VALID_OS, ha, hv,
      mkConfigs, sysOf, osOf, archOf, osarchOf, bitOf, extensionOf,
      majorOf, vmajorOf, minorOf, vminorOf, patchOf, vpatchOf,
      rule_sys, rules_os, dget]

theorem generate_info_eval (version system architecture : String)
    (kwargs : List (String × Val))
    (hs : is_system system = true) (ha : is_architecture architecture = true)
    (hv : is_version version = true) :
    generate_info version system architecture kwargs =
      some (mkConfigs version system architecture ++ kwargs) := by
  simp [generate_info, generate_configs_eval version system architecture hs ha hv]

/-! ## Claims -/

/-- C3: generate_info("v1.2.3-beta", "windows", "x86_64") includes
major_version="1", minor_version="1.2", patch_version="1.2.3",
vmajor_version="v1", sys="winnt", os="win", arch="x64", osarch="win64",
bit=64, extension="exe"; and generate_info("v1.2.3", "linux", "ARMv8")
includes osarch="linux-aarch64", bit=64, extension="tar.gz". -/
theorem C3_examples :
    ((generate_info "v1.2.3-beta" "windows" "x86_64" []).map (fun d =>
        (dget d "major_version", dget d "minor_version", dget d "patch_version",
         dget d "vmajor_version", dget d "sys", dget d "os", dget d "arch",
         dget d "osarch", dget d "bit", dget d "extension")) =
      some (some (Val.str "1"), some (Val.str "1.2"), some (Val.str "1.2.3"),
            some (Val.str "v1"), some (Val.str "winnt"), some (Val.str "win"),
            some (Val.str "x64"), some (Val.str "win64"), some (Val.int 64),
            some (Val.str "exe"))) ∧
    ((generate_info "v1.2.3" "linux" "ARMv8" []).map (fun d =>
        (dget d "osarch", dget d "bit", dget d "extension")) =
      some (some (Val.str "linux-aarch64"), some (Val.int 64),
            some (Val.str "tar.gz"))) :=
  ⟨rfl, rfl⟩

/-- C5: is_version(v) is true iff v is a special name or the version regex
matches a prefix of v anchored at position 0; full-string match is not
required, so "v1.2.3xyz" validates, while "1.2.3" and "v1.2" do not. -/
theorem C5_is_version :
    (∀ v : String,
      is_version v = true ↔ (v ∈ SPECIAL_VERSION_NAMES ∨ versionRegexMatch v = true)) ∧
    is_version "v1.2.3xyz" = true ∧
    is_version "v1.2.3" = true ∧
    is_version "v1.2.3-beta" = true ∧
    is_version "latest" = true ∧
    is_version "1.2.3" = false ∧
    is_version "v1.2" = false := by
  refine ⟨fun v => ?_, by decide, by decide, by decide, by decide, by decide, by decide⟩
  by_cases h : v ∈ SPECIAL_VERSION_NAMES <;> simp [is_version, h]

/-- C4: is_valid_release is false exactly on the four restricted
combinations (windows outside i686/x86_64, macos outside x86_64, freebsd
outside x86_64, latest outside i686/x86_64 or outside
windows/macos/linux) and true on every other combination of strings;
in particular the two concrete examples are false.  The function is a
total Bool-valued predicate, so it never raises. -/
theorem C4_is_valid_release :
    (∀ version system architecture : String,
      is_valid_release version system architecture = false ↔
        ((system = "windows" ∧ architecture ≠ "i686" ∧ architecture ≠ "x86_64") ∨
         (system = "macos" ∧ architecture ≠ "x86_64") ∨
         (system = "freebsd" ∧ architecture ≠ "x86_64") ∨
         (version = "latest" ∧
           ((architecture ≠ "i686" ∧ architecture ≠ "x86_64") ∨
            (system ≠ "windows" ∧ system ≠ "macos" ∧ system ≠ "linux"))))) ∧
    is_valid_release "v1.0.0" "macos" "ARMv7" = false ∧
    is_valid_release "latest" "linux" "ARMv7" = false := by
  refine ⟨fun version system architecture => ?_, by decide, by decide⟩
  unfold is_valid_release
  split_ifs with h1 h2 h3 h4 <;>
    simp_all [List.mem_cons, not_or]

/-- C9: is_valid_release performs no membership validation: whenever the
version is not "latest" and the system is none of windows, macos,
freebsd, it returns true for every architecture string. -/
theorem C9_no_membership_validation (version system architecture : String)
    (hv : version ≠ "latest") (h1 : system ≠ "windows")
    (h2 : system ≠ "macos") (h3 : system ≠ "freebsd") :
    is_valid_release version system architecture = true := by
  unfold is_valid_release
  split_ifs with g1 g2 g3 g4 <;> simp_all

theorem C9_witness : is_valid_release "v1.0.0" "solaris" "sparc" = true :=
  C9_no_membership_validation "v1.0.0" "solaris" "sparc"
    (by decide) (by decide) (by decide) (by decide)

/-- C8: a NameFilter invocation on arguments accepted by validate returns
the rules entry of the key computed by f when present, and the key
unchanged otherwise; the default shape function is the identity on a
single argument and tuples up multiple arguments, and the default
validate accepts everything. -/
theorem C8_namefilter :
    (∀ (α β : Type) [DecidableEq β] (nf : NameFilter α β) (a : α) (k : β),
        nf.validate a = true → nf.f a = some k →
        nf.call a = some ((dget nf.rules k).getD k)) ∧
    (∀ (α : Type) (x : α), identity1 x = x) ∧
    (∀ (α β : Type) (x : α) (y : β), identity2 x y = (x, y)) ∧
    (∀ (α : Type) (x : α), no_validate x = true) := by
  refine ⟨?_, fun _ x => rfl, fun _ _ x y => rfl, fun _ x => rfl⟩
  intro α β inst nf a k hval hf
  simp [NameFilter.call, hval, hf]

theorem C8_witness : f_os.call "windows" = some "win" := by
  have h := C8_namefilter.1 String String f_os "windows" "windows" (by decide) rfl
  simpa [f_os, rules_os, dget] using h

theorem generate_configs_none_sys (version system architecture : String)
    (hs : is_system system = false) :
    generate_configs version system architecture = none := by
  simp [generate_configs, NameFilter.call, f_os, hs]

theorem generate_configs_none_arch (version system architecture : String)
    (ha : is_architecture architecture = false) :
    generate_configs version system architecture = none := by
  cases hos : f_os.call system <;>
    simp [generate_configs, NameFilter.call, f_arch, ha, hos]

theorem generate_configs_none_version (version system architecture : String)
    (hv : is_version version = false) :
    generate_configs version system architecture = none := by
  by_cases hs : is_system system
  · by_cases ha : is_architecture architecture
    · have hs' : system ∈ VALID_SYSTEM := by simpa [is_system] using hs
      simp only [VALID_SYSTEM, List.mem_cons, List.not_mem_nil, or_false] at hs'
      rcases hs' with rfl | rfl | rfl | rfl <;>
        simp [generate_configs, configs_system, configs_architecture, configs_osarch,
          configs_bitext, configs_version, NameFilter.call, f_os, f_arch, f_System,
          f_SYSTEM, f_system, f_sys, f_Sys, f_SYS, f_Os, f_OS, f_Arch, f_ARCH,
          f_osarch, f_Osarch, f_OSarch, f_bit, f_extension, f_version,
          identity1, no_validate, is_system, is_os, VALID_SYSTEM, VALID_OS,
          ha, hv, rule_sys, rules_os, dget]
    · exact generate_configs_none_arch version system architecture
        (by simpa using ha)
  · exact generate_configs_none_sys version system architecture
      (by simpa using hs)

/-- C7: for a system outside the closed enumeration (likewise an invalid
architecture or a version rejected by is_version), generate_info fails and
produces no partial mapping: the whole call returns the error value. -/
theorem C7_all_or_nothing (version system architecture : String)
    (kwargs : List (String × Val))
    (h : system ∉ VALID_SYSTEM ∨ architecture ∉ VALID_ARCHITECTURE ∨
      is_version version = false) :
    generate_info version system architecture kwargs = none := by
  have hnone : generate_configs version system architecture = none := by
    rcases h with h | h | h
    · exact generate_configs_none_sys version system architecture
        (by simp [is_system, h])
    · exact generate_configs_none_arch version system architecture
        (by simp [is_architecture, h])
    · exact generate_configs_none_version version system architecture h
  simp [generate_info, hnone]

theorem C7_witness : generate_info "v1.2.3" "solaris" "x86_64" [] = none :=
  C7_all_or_nothing "v1.2.3" "solaris" "x86_64" [] (Or.inl (by decide))

/-- C6: for every system and architecture in the closed enumerations and
every version accepted by is_version, generate_info completes without any
validation assertion firing, and its result contains all 25 derived
fields. -/
theorem C6_total_on_valid (version system architecture : String)
    (kwargs : List (String × Val))
    (hs : system ∈ VALID_SYSTEM) (ha : architecture ∈ VALID_ARCHITECTURE)
    (hv : is_version version = true) :
    derivedFieldNames.length = 25 ∧
    ∃ d, generate_info version system architecture kwargs = some d ∧
      ∀ k ∈ derivedFieldNames, (dget d k).isSome = true := by
  refine ⟨by decide, mkConfigs version system architecture ++ kwargs,
    generate_info_eval version system architecture kwargs
      (is_system_of_mem hs) (is_architecture_of_mem ha) hv, ?_⟩
  intro k hk
  have hkeys : k ∈ (mkConfigs version system architecture).map Prod.fst := by
    rw [mkConfigs_keys]; exact hk
  rw [dget_append_of_mem_keys k _ _ hkeys]
  exact dget_isSome_of_mem_keys k _ hkeys

theorem C6_witness :
    derivedFieldNames.length = 25 ∧
    ∃ d, generate_info "v1.2.3" "macos" "x86_64" [] = some d ∧
      ∀ k ∈ derivedFieldNames, (dget d k).isSome = true :=
  C6_total_on_valid "v1.2.3" "macos" "x86_64" [] (by decide) (by decide) (by decide)

/-- C1 as stated is false: a caller-supplied extra field with a derived
field name does not override the derived value; generate_info runs
kwargs.update(configs), so the derived value wins. -/
theorem C1_counterexample :
    (generate_info "v1.2.3" "linux" "x86_64" [("os", Val.str "custom")]).map
        (fun d => dget d "os") = some (some (Val.str "linux")) ∧
    Val.str "linux" ≠ Val.str "custom" :=
  ⟨rfl, by decide⟩

/-- C1 amended: on valid inputs the derived fields are unaffected by
caller-supplied extra fields - for every derived field name the returned
value is the same whether or not extra fields were supplied, so on a name
collision the derived value wins (kwargs.update(configs)). -/
theorem C1_derived_overrides_kwargs (version system architecture : String)
    (kwargs : List (String × Val)) (k : String)
    (hs : system ∈ VALID_SYSTEM) (ha : architecture ∈ VALID_ARCHITECTURE)
    (hv : is_version version = true) (hk : k ∈ derivedFieldNames) :
    (generate_info version system architecture kwargs).map (fun d => dget d k) =
      (generate_info version system architecture []).map (fun d => dget d k) := by
  rw [generate_info_eval version system architecture kwargs
      (is_system_of_mem hs) (is_architecture_of_mem ha) hv,
    generate_info_eval version system architecture []
      (is_system_of_mem hs) (is_architecture_of_mem ha) hv]
  have hkeys : k ∈ (mkConfigs version system architecture).map Prod.fst := by
    rw [mkConfigs_keys]; exact hk
  simp only [Option.map_some']
  rw [dget_append_of_mem_keys k _ _ hkeys, dget_append_of_mem_keys k _ _ hkeys]

theorem C1_witness :
    (generate_info "v1.2.3" "linux" "x86_64" [("os", Val.str "custom")]).map
        (fun d => dget d "os") =
      (generate_info "v1.2.3" "linux" "x86_64" []).map (fun d => dget d "os") :=
  C1_derived_overrides_kwargs "v1.2.3" "linux" "x86_64"
    [("os", Val.str "custom")] "os" (by decide) (by decide) (by decide) (by decide)

/-- C2 as stated is false: the mapping returned by generate_info contains
no Vmajor_version, Vminor_version or Vpatch_version key. -/
theorem C2_counterexample :
    (generate_info "v1.2.3" "windows" "x86_64" []).map (fun d =>
        (dget d "Vmajor_version", dget d "Vminor_version", dget d "Vpatch_version")) =
      some (none, none, none) := rfl

/-- C2 amended: the filters f_Vmajor_version, f_Vminor_version and
f_Vpatch_version do compute the capitalized v-preserved version forms,
but generate_info never invokes them, so the returned mapping has no
Vmajor_version, Vminor_version or Vpatch_version keys. -/
theorem C2_no_capitalized_version_keys (version system architecture : String)
    (hs : system ∈ VALID_SYSTEM) (ha : architecture ∈ VALID_ARCHITECTURE)
    (hv : is_version version = true) :
    (∃ d, generate_info version system architecture [] = some d ∧
        dget d "Vmajor_version" = none ∧ dget d "Vminor_version" = none ∧
        dget d "Vpatch_version" = none) ∧
    f_Vmajor_version.call version = some (pyCapitalize (vmajorOf version)) ∧
    f_Vminor_version.call version = some (pyCapitalize (vminorOf version)) ∧
    f_Vpatch_version.call version = some (pyCapitalize (vpatchOf version)) := by
  refine ⟨⟨mkConfigs version system architecture ++ [],
    generate_info_eval version system architecture []
      (is_system_of_mem hs) (is_architecture_of_mem ha) hv, ?_, ?_, ?_⟩, ?_, ?_, ?_⟩
  · simp [mkConfigs, dget]
  · simp [mkConfigs, dget]
  · simp [mkConfigs, dget]
  · simp [f_Vmajor_version, f_vmajor_version, NameFilter.call, no_validate,
      vmajorOf, dget]
  · simp [f_Vminor_version, f_vminor_version, NameFilter.call, no_validate,
      vminorOf, dget]
  · simp [f_Vpatch_version, f_vpatch_version, NameFilter.call, no_validate,
      vpatchOf, dget]

theorem C2_witness :
    (∃ d, generate_info "v1.2.3" "windows" "i686" [] = some d ∧
        dget d "Vmajor_version" = none ∧ dget d "Vminor_version" = none ∧
        dget d "Vpatch_version" = none) ∧
    f_Vmajor_version.call "v1.2.3" = some (pyCapitalize (vmajorOf "v1.2.3")) ∧
    f_Vminor_version.call "v1.2.3" = some (pyCapitalize (vminorOf "v1.2.3")) ∧
    f_Vpatch_version.call "v1.2.3" = some (pyCapitalize (vpatchOf "v1.2.3")) :=
  C2_no_capitalized_version_keys "v1.2.3" "windows" "i686"
    (by decide) (by decide) (by decide)

/-- C10: for each special version name, all seven version fields of the
returned mapping equal the special name itself: the major/minor/patch
derivations do not split it. -/
theorem C10_special_versions (name system architecture : String)
    (hn : name ∈ SPECIAL_VERSION_NAMES)
    (hs : system ∈ VALID_SYSTEM) (ha : architecture ∈ VALID_ARCHITECTURE) :
    ∃ d, generate_info name system architecture [] = some d ∧
      dget d "version" = some (Val.str name) ∧
      dget d "major_version" = some (Val.str name) ∧
      dget d "minor_version" = some (Val.str name) ∧
      dget d "patch_version" = some (Val.str name) ∧
      dget d "vmajor_version" = some (Val.str name) ∧
      dget d "vminor_version" = some (Val.str name) ∧
      dget d "vpatch_version" = some (Val.str name) := by
  simp only [SPECIAL_VERSION_NAMES, List.mem_cons, List.not_mem_nil, or_false] at hn
  have hv : is_version name = true := by
    rcases hn with rfl | rfl | rfl <;> decide
  refine ⟨mkConfigs name system architecture ++ [],
    generate_info_eval name system architecture []
      (is_system_of_mem hs) (is_architecture_of_mem ha) hv, ?_⟩
  have h1 : majorOf name = name := by rcases hn with rfl | rfl | rfl <;> decide
  have h2 : vmajorOf name = name := by rcases hn with rfl | rfl | rfl <;> decide
  have h3 : minorOf name = name := by rcases hn with rfl | rfl | rfl <;> decide
  have h4 : vminorOf name = name := by rcases hn with rfl | rfl | rfl <;> decide
  have h5 : patchOf name = name := by rcases hn with rfl | rfl | rfl <;> decide
  have h6 : vpatchOf name = name := by rcases hn with rfl | rfl | rfl <;> decide
  simp [mkConfigs, dget, h1, h2, h3, h4, h5, h6]

theorem C10_witness :
    ∃ d, generate_info "latest" "linux" "i686" [] = some d ∧
      dget d "version" = some (Val.str "latest") ∧
      dget d "major_version" = some (Val.str "latest") ∧
      dget d "minor_version" = some (Val.str "latest") ∧
      dget d "patch_version" = some (Val.str "latest") ∧
      dget d "vmajor_version" = some (Val.str "latest") ∧
      dget d "vminor_version" = some (Val.str "latest") ∧
      dget d "vpatch_version" = some (Val.str "latest") :=
  C10_special_versions "latest" "linux" "i686" (by decide) (by decide) (by decide)
